import Mathlib

/-!
Verification development for the dataflow multi-agent orchestration repository.

Shallow embedding of the supervisor/workflow coordination logic
(src/agent/orchestrator.py, src/agent/langgraph_orchestrator.py), the agent
LLM-step fallback pattern (src/agent/metadata_agent.py, src/agent/data_agent.py),
the MCP tool discovery/invocation of the data agent (src/agent/data_agent.py),
the Azure OpenAI client initialization (src/agent/azure_openai_client.py) and
the base agent execute wrapper (src/agent/base_agent.py).

Python dict/JSON values are modelled by the inductive `PyVal`; machine-level
effects (HTTP, database bookkeeping, datetimes) are passed in explicitly as
parameters (LLM outcomes, agent execution outcomes, the current timestamp).
-/

/-- Python/JSON-like values: None, bool, int, str, list, dict. -/
inductive PyVal where
  | null : PyVal
  | bool : Bool → PyVal
  | int : Int → PyVal
  | str : String → PyVal
  | list : List PyVal → PyVal
  | dict : List (String × PyVal) → PyVal

/-- Python `d.get(k)` on a dict value (default None); None on non-dicts
(the sources only apply it to dicts). -/
def pyGet (v : PyVal) (k : String) : PyVal :=
  match v with
  | .dict kvs => (kvs.lookup k).getD .null
  | _ => .null

/-- Python `d.get(k, default)` on a dict value. -/
def pyGetD (v : PyVal) (k : String) (default : PyVal) : PyVal :=
  match v with
  | .dict kvs => (kvs.lookup k).getD default
  | _ => default

/-- Python `d.get(k, default)` where `d` may not be a dict: on a non-dict it
raises `AttributeError` (modelled as `Except.error`). -/
def pyGetE (v : PyVal) (k : String) (default : PyVal) : Except String PyVal :=
  match v with
  | .dict kvs => .ok ((kvs.lookup k).getD default)
  | _ => .error "AttributeError"

/-- Python truthiness of a value (`if x:`). -/
def PyVal.truthy : PyVal → Bool
  | .null => false
  | .bool b => b
  | .int n => decide (n ≠ 0)
  | .str s => decide (s ≠ "")
  | .list l => !l.isEmpty
  | .dict l => !l.isEmpty

/-- The `DataflowState` of orchestrator.py / langgraph_orchestrator.py
(both files declare the identical class).  The LangGraph `messages` channel is
not modelled: no claim concerns it. -/
structure DataflowState where
  task_description : String
  user_email : String
  session_id : String
  query : Option String := Option.none
  metadata_results : Option PyVal := Option.none
  entitlement_results : Option PyVal := Option.none
  data_results : Option PyVal := Option.none
  aggregation_results : Option PyVal := Option.none
  current_agent : Option String := Option.none
  workflow_status : String := "started"
  error_count : Nat := 0
  max_errors : Nat := 3
  started_at : Option String := Option.none
  completed_at : Option String := Option.none
  total_agents_executed : Nat := 0

/-- Outcome of the supervisor's `call_llm` round-trip: a reply string, an
`LLMValidationError`, or any other exception. -/
inductive LLMOutcome where
  | ok (reply : String)
  | exnValidation
  | exnOther
deriving DecidableEq

/-- Outcome of one `agent.execute(...)` call inside a graph node: a result
dict, or an exception carrying its message. -/
inductive ExecOutcome where
  | ok (result : PyVal)
  | exn (msg : String)

/-- Target of a LangGraph `Command(goto=...)`: a named node or END. -/
inductive GotoTarget where
  | node (name : String)
  | END
deriving DecidableEq

/-- A supervisor `Command`: goto target plus the state fields it updates
(absent fields are left unchanged when the update is applied). -/
structure SupCommand where
  goto : GotoTarget
  workflow_status : Option String := Option.none
  completed_at : Option String := Option.none
  current_agent : Option String := Option.none
deriving DecidableEq

/-- Apply a supervisor command's update to the state (LangGraph merges the
update dict into the state channels). -/
def SupCommand.apply (c : SupCommand) (s : DataflowState) : DataflowState :=
  { s with
    workflow_status := c.workflow_status.getD s.workflow_status,
    completed_at := match c.completed_at with
      | some t => some t
      | Option.none => s.completed_at,
    current_agent := match c.current_agent with
      | some a => some a
      | Option.none => s.current_agent }

/-- A static description of a built StateGraph: node names and edges, in the
order the builder calls are made. -/
structure GraphSpec where
  nodes : List String
  edges : List (String × String)

namespace Orchestrator

/-- `Orchestrator._build_graph` (src/agent/orchestrator.py lines 68-92): the
six `add_node` calls and the edges, in source order. -/
def build_graph : GraphSpec :=
  { nodes := ["supervisor", "metadata_agent", "entitlement_agent",
              "data_agent", "aggregation_agent", "error_handler"],
    edges := [("START", "supervisor"),
              ("metadata_agent", "supervisor"),
              ("entitlement_agent", "supervisor"),
              ("data_agent", "supervisor"),
              ("aggregation_agent", "supervisor"),
              ("error_handler", "supervisor")] }

/-- The `valid_options` list of `Orchestrator._llm_decide_next_agent`. -/
def valid_options : List String :=
  ["metadata_agent", "entitlement_agent", "data_agent",
   "aggregation_agent", "complete", "error"]

/-- `Orchestrator._fallback_decision_logic` (orchestrator.py lines 201-213). -/
def fallback_decision_logic (state : DataflowState) : String :=
  if state.metadata_results.isNone then "metadata_agent"
  else if state.entitlement_results.isNone then "entitlement_agent"
  else if state.data_results.isNone then "data_agent"
  else if state.aggregation_results.isNone then "aggregation_agent"
  else "complete"

/-- `Orchestrator._llm_decide_next_agent` (orchestrator.py lines 130-199):
`decision = llm_response.strip().lower()`; a decision in `valid_options` is
returned, otherwise (and on `LLMValidationError` or any other exception) the
fallback logic decides. -/
def llm_decide_next_agent (state : DataflowState) (llm : LLMOutcome) : String :=
  match llm with
  | .ok llm_response =>
      let decision := llm_response.trim.toLower
      if decision ∈ valid_options then decision
      else fallback_decision_logic state
  | .exnValidation => fallback_decision_logic state
  | .exnOther => fallback_decision_logic state

/-- `Orchestrator._supervisor_agent` (orchestrator.py lines 94-128).
`now` stands for `datetime.now().isoformat()`. -/
def supervisor_agent (now : String) (state : DataflowState)
    (llm : LLMOutcome) : SupCommand :=
  if state.error_count ≥ state.max_errors then
    { goto := .END, workflow_status := some "failed", completed_at := some now }
  else
    let next_agent := llm_decide_next_agent state llm
    if next_agent = "complete" then
      { goto := .END, workflow_status := some "completed", completed_at := some now }
    else if next_agent = "error" then
      { goto := .node "error_handler" }
    else
      { goto := .node next_agent, current_agent := some next_agent }

/-- `Orchestrator._metadata_agent_node` (orchestrator.py lines 215-259):
on success store the result and bump `total_agents_executed`; on exception
bump `error_count` by one; either way goto supervisor. -/
def metadata_agent_node (state : DataflowState) (exec : ExecOutcome) :
    String × DataflowState :=
  match exec with
  | .ok result =>
      ("supervisor",
        { state with
          metadata_results := some result,
          total_agents_executed := state.total_agents_executed + 1 })
  | .exn _ =>
      ("supervisor", { state with error_count := state.error_count + 1 })

/-- `Orchestrator._entitlement_agent_node` (orchestrator.py lines 261-305). -/
def entitlement_agent_node (state : DataflowState) (exec : ExecOutcome) :
    String × DataflowState :=
  match exec with
  | .ok result =>
      ("supervisor",
        { state with
          entitlement_results := some result,
          total_agents_executed := state.total_agents_executed + 1 })
  | .exn _ =>
      ("supervisor", { state with error_count := state.error_count + 1 })

/-- `Orchestrator._data_agent_node` (orchestrator.py lines 307-351). -/
def data_agent_node (state : DataflowState) (exec : ExecOutcome) :
    String × DataflowState :=
  match exec with
  | .ok result =>
      ("supervisor",
        { state with
          data_results := some result,
          total_agents_executed := state.total_agents_executed + 1 })
  | .exn _ =>
      ("supervisor", { state with error_count := state.error_count + 1 })

/-- `Orchestrator._aggregation_agent_node` (orchestrator.py lines 353-397). -/
def aggregation_agent_node (state : DataflowState) (exec : ExecOutcome) :
    String × DataflowState :=
  match exec with
  | .ok result =>
      ("supervisor",
        { state with
          aggregation_results := some result,
          total_agents_executed := state.total_agents_executed + 1 })
  | .exn _ =>
      ("supervisor", { state with error_count := state.error_count + 1 })

/-- `Orchestrator._error_handler_node` (orchestrator.py lines 399-414): only
appends a message (not modelled) and returns to the supervisor. -/
def error_handler_node (state : DataflowState) : String × DataflowState :=
  ("supervisor", state)

/-- The six graph nodes of orchestrator.py. -/
inductive GraphNode where
  | supervisor
  | metadata_agent
  | entitlement_agent
  | data_agent
  | aggregation_agent
  | error_handler
deriving DecidableEq

/-- The external inputs one node execution may consume: the supervisor's LLM
outcome, an agent's execution outcome, and the current timestamp. -/
structure Env where
  llm : LLMOutcome
  exec : ExecOutcome
  now : String

/-- One step of the state machine: run the named node on the state with the
given external inputs, producing the goto target and the updated state. -/
def step (env : Env) : GraphNode → DataflowState → GotoTarget × DataflowState
  | .supervisor, s =>
      let c := supervisor_agent env.now s env.llm
      (c.goto, c.apply s)
  | .metadata_agent, s =>
      let r := metadata_agent_node s env.exec
      (.node r.1, r.2)
  | .entitlement_agent, s =>
      let r := entitlement_agent_node s env.exec
      (.node r.1, r.2)
  | .data_agent, s =>
      let r := data_agent_node s env.exec
      (.node r.1, r.2)
  | .aggregation_agent, s =>
      let r := aggregation_agent_node s env.exec
      (.node r.1, r.2)
  | .error_handler, s =>
      let r := error_handler_node s
      (.node r.1, r.2)

/-- Run a sequence of node executions (each with its own inputs) from a state. -/
def runTrace (tr : List (Env × GraphNode)) (s : DataflowState) : DataflowState :=
  tr.foldl (fun acc p => (step p.1 p.2 acc).2) s

end Orchestrator

namespace LangGraphOrchestrator

/-- `LangGraphOrchestrator._build_graph` (src/agent/langgraph_orchestrator.py
lines 67-91): the six `add_node` calls and the edges, in source order. -/
def build_graph : GraphSpec :=
  { nodes := ["supervisor", "metadata_agent", "entitlement_agent",
              "data_agent", "aggregation_agent", "error_handler"],
    edges := [("START", "supervisor"),
              ("metadata_agent", "supervisor"),
              ("entitlement_agent", "supervisor"),
              ("data_agent", "supervisor"),
              ("aggregation_agent", "supervisor"),
              ("error_handler", "supervisor")] }

/-- The `valid_options` list of `LangGraphOrchestrator._llm_decide_next_agent`. -/
def valid_options : List String :=
  ["metadata_agent", "entitlement_agent", "data_agent",
   "aggregation_agent", "complete", "error"]

/-- `LangGraphOrchestrator._fallback_decision_logic`
(langgraph_orchestrator.py lines 196-208). -/
def fallback_decision_logic (state : DataflowState) : String :=
  if state.metadata_results.isNone then "metadata_agent"
  else if state.entitlement_results.isNone then "entitlement_agent"
  else if state.data_results.isNone then "data_agent"
  else if state.aggregation_results.isNone then "aggregation_agent"
  else "complete"

/-- `LangGraphOrchestrator._llm_decide_next_agent`
(langgraph_orchestrator.py lines 129-194): this file has a single
`except Exception` clause, which also catches `LLMValidationError`. -/
def llm_decide_next_agent (state : DataflowState) (llm : LLMOutcome) : String :=
  match llm with
  | .ok llm_response =>
      let decision := llm_response.trim.toLower
      if decision ∈ valid_options then decision
      else fallback_decision_logic state
  | .exnValidation | .exnOther => fallback_decision_logic state

/-- `LangGraphOrchestrator._supervisor_agent`
(langgraph_orchestrator.py lines 93-127). -/
def supervisor_agent (now : String) (state : DataflowState)
    (llm : LLMOutcome) : SupCommand :=
  if state.error_count ≥ state.max_errors then
    { goto := .END, workflow_status := some "failed", completed_at := some now }
  else
    let next_agent := llm_decide_next_agent state llm
    if next_agent = "complete" then
      { goto := .END, workflow_status := some "completed", completed_at := some now }
    else if next_agent = "error" then
      { goto := .node "error_handler" }
    else
      { goto := .node next_agent, current_agent := some next_agent }

/-- `LangGraphOrchestrator._data_agent_node` (langgraph_orchestrator.py lines
285-334).  The returned Bool records whether `self.data_agent.execute` was
invoked.  Python guard, inside the node's try block:
`if state.entitlement_results:` (truthiness), then
`access_granted = state.entitlement_results.get("entitlement_summary", {})
.get("access_granted", False)`; when not granted the node returns at once
with an access-denied `data_results` dict and no data retrieval call.  Either
`.get` raises `AttributeError` when its receiver is not a dict; that
exception, like one from `data_agent.execute`, is caught by the node's
`except Exception` handler (line 326), which increments `error_count` and
updates nothing else modelled here. -/
def data_agent_node (state : DataflowState) (exec : ExecOutcome) :
    Bool × String × DataflowState :=
  let run_data_agent : Bool × String × DataflowState :=
    match exec with
    | .ok result =>
        (true, "supervisor",
          { state with
            data_results := some result,
            total_agents_executed := state.total_agents_executed + 1 })
    | .exn _ =>
        (true, "supervisor", { state with error_count := state.error_count + 1 })
  match state.entitlement_results with
  | some er =>
      if er.truthy then
        match pyGetE er "entitlement_summary" (.dict []) with
        | .error _ =>
            (false, "supervisor",
              { state with error_count := state.error_count + 1 })
        | .ok summary =>
            match pyGetE summary "access_granted" (.bool false) with
            | .error _ =>
                (false, "supervisor",
                  { state with error_count := state.error_count + 1 })
            | .ok access_granted =>
                if !access_granted.truthy then
                  (false, "supervisor",
                    { state with data_results := some (.dict [("error",
                        .str "Access denied by entitlement validation")]) })
                else run_data_agent
      else run_data_agent
  | Option.none => run_data_agent

end LangGraphOrchestrator

/-- Outcome of `json.loads` on an LLM reply: a parsed value, or
`json.JSONDecodeError`. -/
inductive ParseOutcome where
  | ok (v : PyVal)
  | fail

/-- One agent LLM-reasoning round-trip as the surrounding method sees it:
the raw reply together with its parse outcome, or an exception from the
`call_llm` invocation itself. -/
inductive LLMStep where
  | reply (raw : String) (parsed : ParseOutcome)
  | exn (msg : String)

namespace MetadataAgent

/-- `MetadataAgent._fallback_discovery_strategy`
(src/agent/metadata_agent.py lines 525-536): a dict literal that ignores both
arguments. -/
def fallback_discovery_strategy (task_description : String) (context : PyVal) :
    PyVal :=
  .dict [("discovery_goals",
            .list [.str "schema_discovery", .str "relationship_mapping"]),
         ("priority_areas", .list [.str "enterprise_data"]),
         ("scope_preferences", .list [.str "enterprise"]),
         ("depth_level", .str "medium"),
         ("relationship_focus", .list [.str "table_relationships"]),
         ("success_criteria", .list [.str "identify_relevant_tables"]),
         ("estimated_complexity", .str "medium"),
         ("reasoning",
            .str "Fallback strategy - comprehensive enterprise metadata discovery")]

/-- `MetadataAgent._llm_create_discovery_strategy`
(metadata_agent.py lines 93-139): parse the reply; on
`(json.JSONDecodeError, Exception)` return the fallback strategy. -/
def llm_create_discovery_strategy (task_description : String) (context : PyVal)
    (llm : LLMStep) : PyVal :=
  match llm with
  | .reply _ (.ok strategy) => strategy
  | .reply _ .fail => fallback_discovery_strategy task_description context
  | .exn _ => fallback_discovery_strategy task_description context

/-- `MetadataAgent._llm_create_denodo_queries` (metadata_agent.py lines
339-374): `queries = json.loads(llm_response); return queries if
isinstance(queries, list) else ["SHOW TABLES", "SHOW VIEWS"]`, and the bare
`except:` returns a hardcoded list of three queries — a list, not a dict. -/
def llm_create_denodo_queries (strategy : PyVal) (context : PyVal)
    (llm : LLMStep) : PyVal :=
  match llm with
  | .reply _ (.ok queries) =>
      match queries with
      | .list qs => .list qs
      | _ => .list [.str "SHOW TABLES", .str "SHOW VIEWS"]
  | .reply _ .fail =>
      .list [.str "SHOW TABLES", .str "SHOW VIEWS",
        .str "SELECT TABLE_NAME, TABLE_TYPE FROM INFORMATION_SCHEMA.TABLES LIMIT 20"]
  | .exn _ =>
      .list [.str "SHOW TABLES", .str "SHOW VIEWS",
        .str "SELECT TABLE_NAME, TABLE_TYPE FROM INFORMATION_SCHEMA.TABLES LIMIT 20"]

end MetadataAgent

namespace Subagents

/-- The JSON-parse fallback inside the `_execute_logic` bodies of the
duplicate MetadataAgent and EntitlementAgent in src/agent/subagents.py
(lines 193-196 and 271-274): `try: llm_analysis = json.loads(llm_response)
except json.JSONDecodeError: llm_analysis = {"analysis": llm_response}` —
a dict that embeds the raw reply. -/
def llm_analysis_of (llm_response : String) (parsed : ParseOutcome) : PyVal :=
  match parsed with
  | .ok v => v
  | .fail => .dict [("analysis", .str llm_response)]

end Subagents

/-- An HTTP request as issued by `httpx.AsyncClient.post(url, json=body)`. -/
structure HttpRequest where
  verb : String
  url : PyVal
  body : PyVal

namespace DataAgent

/-- `DataAgent._load_mcp_config` (src/agent/data_agent.py lines 31-42).
`file` is the parsed JSON content of the file at `MCP_CONFIG_PATH`, or none
when the file is missing or unreadable (`FileNotFoundError` or any other
exception).  `config.get("servers", {})` on a successfully parsed dict; a
parsed non-dict makes `.get` raise `AttributeError`, which the
`except Exception` clause also turns into `{}` — exactly `pyGetD`. -/
def load_mcp_config (file : Option PyVal) : PyVal :=
  match file with
  | some config => pyGetD config "servers" (.dict [])
  | Option.none => .dict []

/-- The server entries `DataAgent._discover_tools_from_mcp_servers`
(data_agent.py lines 44-80) actually contacts: it `continue`s unless
`server_config.get("type")` equals `"http"` and `server_config.get("url")`
is truthy. -/
def contacted_servers (servers : PyVal) : List (String × PyVal) :=
  match servers with
  | .dict kvs =>
      kvs.filter (fun p =>
        (match pyGet p.2 "type" with
         | .str t => decide (t = "http")
         | _ => false) &&
        (pyGet p.2 "url").truthy)
  | _ => []

/-- The JSON-RPC body of the `tools/list` discovery request
(`DataAgent._get_tools_from_mcp_server`, data_agent.py lines 90-95). -/
def tools_list_request : PyVal :=
  .dict [("jsonrpc", .str "2.0"), ("id", .int 1), ("method", .str "tools/list")]

/-- The HTTP requests sent during discovery: one POST of the `tools/list`
body to each contacted server's url. -/
def discovery_requests (servers : PyVal) : List HttpRequest :=
  (contacted_servers servers).map (fun p =>
    { verb := "POST", url := pyGet p.2 "url", body := tools_list_request })

/-- The JSON-RPC body of a `tools/call` invocation
(`DataAgent._execute_single_mcp_tool`, data_agent.py lines 366-374). -/
def tools_call_request (tool_name : String) (arguments : PyVal) : PyVal :=
  .dict [("jsonrpc", .str "2.0"), ("id", .int 1), ("method", .str "tools/call"),
         ("params", .dict [("name", .str tool_name), ("arguments", arguments)])]

/-- The HTTP request issued by `DataAgent._execute_single_mcp_tool`
(data_agent.py lines 344-422): a POST of the `tools/call` body to the
tool's server url. -/
def execute_single_mcp_tool_request (server_url : PyVal) (tool_name : String)
    (tool_args : PyVal) : HttpRequest :=
  { verb := "POST", url := server_url,
    body := tools_call_request tool_name tool_args }

/-- `DataAgent._llm_analyze_results` (data_agent.py lines 456-513): on
`json.JSONDecodeError` it returns a dict wrapping the raw reply; on a
`call_llm` exception it returns the error together with the raw tool
results. -/
def llm_analyze_results (tool_results : PyVal) (llm : LLMStep) : PyVal :=
  match llm with
  | .reply _ (.ok analysis) => analysis
  | .reply llm_response .fail =>
      .dict [("analysis", .str llm_response), ("format", .str "unstructured")]
  | .exn e =>
      .dict [("error", .str ("Analysis failed: " ++ e)),
             ("raw_results", tool_results)]

end DataAgent

/-- `AzureOpenAIConfig` (src/agent/azure_openai_config.py lines 16-23). -/
structure AzureOpenAIConfig where
  endpoint : String
  deployment_name : String
  api_version : String := "2024-10-21"
  api_key : Option String := Option.none
  use_azure_ad : Bool := false

/-- The authentication mode the built `AsyncAzureOpenAI` client carries. -/
inductive AuthMode where
  | azureADTokenProvider
  | apiKey (key : String)
deriving DecidableEq

/-- The constructed `AsyncAzureOpenAI` client, as far as its construction
arguments are observable. -/
structure BuiltClient where
  auth : AuthMode
  azure_endpoint : String
  api_version : String
deriving DecidableEq

namespace AzureOpenAIClient

/-- `AzureOpenAIClient.initialize` (src/agent/azure_openai_client.py lines
60-88).  `Except.error msg` models `raise LLMValidationError(msg)`; the
inner `LLMValidationError` is re-wrapped by the outer `except Exception`
handler with the prefix seen below. -/
def initialize_client (config : AzureOpenAIConfig) : Except String BuiltClient :=
  if config.use_azure_ad then
    .ok { auth := .azureADTokenProvider,
          azure_endpoint := config.endpoint,
          api_version := config.api_version }
  else
    match config.api_key with
    | Option.none =>
        .error ("Azure OpenAI LLM client initialization failed: " ++
          "API key is required when not using Azure AD authentication")
    | some key =>
        .ok { auth := .apiKey key,
              azure_endpoint := config.endpoint,
              api_version := config.api_version }

end AzureOpenAIClient

namespace BaseAgent

/-- `BaseAgent.execute` (src/agent/base_agent.py lines 43-108), after the
execution record was created (`execution_id`).  `logic` is the outcome of
`self._execute_logic(...)` — every implementation returns a dict literal,
so the ok payload is an association list.  The database bookkeeping calls
are effects without influence on the returned value and are not modelled. -/
def execute (agent_type : String) (execution_id : String)
    (execution_time_ms : Nat)
    (logic : Except String (List (String × PyVal))) : PyVal :=
  match logic with
  | .ok results =>
      .dict [("execution_id", .str execution_id),
             ("status", .str "completed"),
             ("results", .dict results),
             ("execution_time_ms", .int (execution_time_ms : Int)),
             ("summary", (results.lookup "summary").getD
               (.str (agent_type ++ " agent completed successfully")))]
  | .error e =>
      .dict [("execution_id", .str execution_id),
             ("status", .str "failed"),
             ("error", .str e),
             ("execution_time_ms", .int (execution_time_ms : Int)),
             ("summary", .str (agent_type ++ " agent failed: " ++ e))]

end BaseAgent

/-- Claim C1: in the state-machine orchestrator's supervisor, for every
workflow state with error_count < max_errors, if the LLM call raises or its
stripped, lower-cased reply is not one of the six valid option strings, the
chosen next node is the fixed sequential order: metadata_agent if
metadata_results is None, else entitlement_agent if entitlement_results is
None, else data_agent if data_results is None, else aggregation_agent if
aggregation_results is None, else complete. -/
theorem c1_llm_failure_falls_back_to_sequential_order
    (state : DataflowState) (llm : LLMOutcome)
    (herr : state.error_count < state.max_errors)
    (hfail : llm = .exnValidation ∨ llm = .exnOther ∨
      ∀ r, llm = .ok r → r.trim.toLower ∉ Orchestrator.valid_options) :
    Orchestrator.llm_decide_next_agent state llm =
      (if state.metadata_results.isNone then "metadata_agent"
       else if state.entitlement_results.isNone then "entitlement_agent"
       else if state.data_results.isNone then "data_agent"
       else if state.aggregation_results.isNone then "aggregation_agent"
       else "complete") := by
  rcases hfail with h | h | h
  · subst h; rfl
  · subst h; rfl
  · cases llm with
    | ok r =>
        have hr := h r rfl
        simp [Orchestrator.llm_decide_next_agent, hr,
          Orchestrator.fallback_decision_logic]
    | exnValidation => rfl
    | exnOther => rfl

/-- Witness for C1 at a concrete fresh state with a failing LLM call. -/
theorem c1_witness :
    Orchestrator.llm_decide_next_agent
      { task_description := "analyze sales", user_email := "u@x", session_id := "s1" }
      LLMOutcome.exnOther = "metadata_agent" := by
  have h := c1_llm_failure_falls_back_to_sequential_order
    { task_description := "analyze sales", user_email := "u@x", session_id := "s1" }
    LLMOutcome.exnOther (by decide) (Or.inr (Or.inl rfl))
  simpa using h

/-- Claim C2: for every state with error_count >= max_errors (default 3)
the supervisor goes directly to END with workflow_status "failed" and
completed_at set, independently of the LLM outcome and without entering any
agent node; and each agent node on an execution exception increments
error_count by exactly one. -/
theorem c2_max_errors_terminates_failed
    (now : String) (state : DataflowState) (llm : LLMOutcome)
    (h : state.error_count ≥ state.max_errors) :
    (Orchestrator.supervisor_agent now state llm =
      { goto := .END, workflow_status := some "failed",
        completed_at := some now }) ∧
    (∀ llm1 llm2, Orchestrator.supervisor_agent now state llm1 =
      Orchestrator.supervisor_agent now state llm2) ∧
    (({ task_description := "t", user_email := "u",
        session_id := "s" } : DataflowState).max_errors = 3) ∧
    (∀ (s : DataflowState) (e : String),
      (Orchestrator.metadata_agent_node s (.exn e)).2.error_count =
          s.error_count + 1 ∧
      (Orchestrator.entitlement_agent_node s (.exn e)).2.error_count =
          s.error_count + 1 ∧
      (Orchestrator.data_agent_node s (.exn e)).2.error_count =
          s.error_count + 1 ∧
      (Orchestrator.aggregation_agent_node s (.exn e)).2.error_count =
          s.error_count + 1) := by
  refine ⟨?_, ?_, rfl, ?_⟩
  · simp [Orchestrator.supervisor_agent, h]
  · intro llm1 llm2
    simp [Orchestrator.supervisor_agent, h]
  · intro s e
    exact ⟨rfl, rfl, rfl, rfl⟩

/-- Witness for C2 at a concrete state with error_count = max_errors = 3. -/
theorem c2_witness :
    Orchestrator.supervisor_agent "2026-01-01T00:00:00"
      { task_description := "t", user_email := "u", session_id := "s",
        error_count := 3 }
      (LLMOutcome.ok "data_agent") =
      { goto := .END, workflow_status := some "failed",
        completed_at := some "2026-01-01T00:00:00" } :=
  (c2_max_errors_terminates_failed "2026-01-01T00:00:00"
    { task_description := "t", user_email := "u", session_id := "s",
      error_count := 3 }
    (LLMOutcome.ok "data_agent") (by decide)).1

/-- Claim C3 counterexample: the built graph does not have five nodes —
`_build_graph` makes six `add_node` calls (supervisor, four agent nodes and
error_handler). -/
theorem c3_counterexample_not_five_nodes :
    Orchestrator.build_graph.nodes.length ≠ 5 := by decide

/-- Claim C3 (amended): the state-machine orchestrator's graph contains
exactly six distinct nodes, and the langgraph_orchestrator.py variant builds
the same node list. -/
theorem c3_graph_has_six_nodes :
    Orchestrator.build_graph.nodes.length = 6 ∧
    Orchestrator.build_graph.nodes.Nodup ∧
    LangGraphOrchestrator.build_graph.nodes.length = 6 ∧
    LangGraphOrchestrator.build_graph.nodes = Orchestrator.build_graph.nodes :=
  ⟨rfl, by decide, rfl, rfl⟩

/-- Claim C5: the two orchestrator implementations compute the same
supervisor decision — identical supervisor commands for every state and
identical LLM outcome (including either kind of exception), the same
valid-options list, and extensionally equal fallback decision functions. -/
theorem c5_supervisors_extensionally_equal :
    (∀ (now : String) (state : DataflowState) (llm : LLMOutcome),
        Orchestrator.supervisor_agent now state llm =
          LangGraphOrchestrator.supervisor_agent now state llm) ∧
    Orchestrator.valid_options = LangGraphOrchestrator.valid_options ∧
    (∀ state, Orchestrator.fallback_decision_logic state =
        LangGraphOrchestrator.fallback_decision_logic state) ∧
    (∀ state llm, Orchestrator.llm_decide_next_agent state llm =
        LangGraphOrchestrator.llm_decide_next_agent state llm) := by
  refine ⟨fun now state llm => ?_, rfl, fun state => rfl, fun state llm => ?_⟩
  · cases llm <;> rfl
  · cases llm <;> rfl

/-- Claim C4 counterexample: the value `DataAgent._llm_analyze_results`
returns when JSON parsing of the LLM reply fails is not a fixed value
independent of the reply's content — two different unparseable replies give
two different result dicts. -/
theorem c4_counterexample_fallback_depends_on_reply :
    DataAgent.llm_analyze_results (.list [])
        (.reply "reply one" .fail) ≠
      DataAgent.llm_analyze_results (.list [])
        (.reply "reply two" .fail) := by
  simp [DataAgent.llm_analyze_results]

/-- Claim C4 (amended): in the two agent LLM-reasoning steps the claim
cites, JSON-parse failure does not raise and yields a fallback dict —
`MetadataAgent._llm_create_discovery_strategy` returns the hardcoded
strategy dict, independent of the reply and of the method's arguments,
while `DataAgent._llm_analyze_results` returns the reply-dependent dict
embedding the raw reply under "analysis" with "format": "unstructured" —
but the pattern is not uniform across every agent method:
`MetadataAgent._llm_create_denodo_queries` falls back to a hardcoded list
of query strings (not a dict), and the subagents.py analysis steps fall
back to the reply-dependent dict embedding the raw reply under
"analysis". -/
theorem c4_fallback_dicts_on_parse_failure :
    (∀ (t : String) (c : PyVal) (r : String),
        MetadataAgent.llm_create_discovery_strategy t c (.reply r .fail) =
          MetadataAgent.fallback_discovery_strategy t c) ∧
    (∀ (t1 t2 : String) (c1 c2 : PyVal),
        MetadataAgent.fallback_discovery_strategy t1 c1 =
          MetadataAgent.fallback_discovery_strategy t2 c2) ∧
    (∀ (tool_results : PyVal) (r : String),
        DataAgent.llm_analyze_results tool_results (.reply r .fail) =
          .dict [("analysis", .str r), ("format", .str "unstructured")]) ∧
    (∀ (strategy context : PyVal) (r : String),
        MetadataAgent.llm_create_denodo_queries strategy context
            (.reply r .fail) =
          .list [.str "SHOW TABLES", .str "SHOW VIEWS",
            .str "SELECT TABLE_NAME, TABLE_TYPE FROM INFORMATION_SCHEMA.TABLES LIMIT 20"]) ∧
    (∀ (r : String),
        Subagents.llm_analysis_of r .fail =
          .dict [("analysis", .str r)]) :=
  ⟨fun _ _ _ => rfl, fun _ _ _ _ => rfl, fun _ _ => rfl,
   fun _ _ _ => rfl, fun _ => rfl⟩

/-- Claim C7: `AzureOpenAIClient.initialize` selects exactly one of two
authentication modes — an Azure AD token provider when the config's
use_azure_ad flag is set, otherwise the configured api_key — and raises
`LLMValidationError` when use_azure_ad is false and no api_key is present. -/
theorem c7_initialize_auth_modes (config : AzureOpenAIConfig) :
    (config.use_azure_ad = true →
      AzureOpenAIClient.initialize_client config =
        .ok { auth := .azureADTokenProvider,
              azure_endpoint := config.endpoint,
              api_version := config.api_version }) ∧
    (∀ key, config.use_azure_ad = false → config.api_key = some key →
      AzureOpenAIClient.initialize_client config =
        .ok { auth := .apiKey key,
              azure_endpoint := config.endpoint,
              api_version := config.api_version }) ∧
    (config.use_azure_ad = false → config.api_key = Option.none →
      AzureOpenAIClient.initialize_client config =
        .error ("Azure OpenAI LLM client initialization failed: " ++
          "API key is required when not using Azure AD authentication")) := by
  refine ⟨fun had => ?_, fun key had hkey => ?_, fun had hkey => ?_⟩
  · simp [AzureOpenAIClient.initialize_client, had]
  · simp [AzureOpenAIClient.initialize_client, had, hkey]
  · simp [AzureOpenAIClient.initialize_client, had, hkey]

/-- Witness for C7: with use_azure_ad false and no api_key, initialization
fails with the LLMValidationError message. -/
theorem c7_witness :
    AzureOpenAIClient.initialize_client
      { endpoint := "https://e.openai.azure.com", deployment_name := "gpt4" } =
      .error ("Azure OpenAI LLM client initialization failed: " ++
        "API key is required when not using Azure AD authentication") :=
  (c7_initialize_auth_modes
    { endpoint := "https://e.openai.azure.com", deployment_name := "gpt4" }).2.2
    rfl rfl

/-- Claim C8: `BaseAgent.execute` never propagates an exception of
`_execute_logic` (once the execution record exists): on an exception it
returns a dict with status "failed", the error message, the execution_id and
execution_time_ms; on success it returns a dict with status "completed"
containing the results. -/
theorem c8_execute_never_propagates (agent_type execution_id : String)
    (t : Nat) (e : String) (results : List (String × PyVal)) :
    (BaseAgent.execute agent_type execution_id t (.error e) =
      .dict [("execution_id", .str execution_id),
             ("status", .str "failed"),
             ("error", .str e),
             ("execution_time_ms", .int (t : Int)),
             ("summary", .str (agent_type ++ " agent failed: " ++ e))]) ∧
    pyGet (BaseAgent.execute agent_type execution_id t (.error e))
      "status" = .str "failed" ∧
    pyGet (BaseAgent.execute agent_type execution_id t (.error e))
      "error" = .str e ∧
    pyGet (BaseAgent.execute agent_type execution_id t (.error e))
      "execution_id" = .str execution_id ∧
    pyGet (BaseAgent.execute agent_type execution_id t (.error e))
      "execution_time_ms" = .int (t : Int) ∧
    pyGet (BaseAgent.execute agent_type execution_id t (.ok results))
      "status" = .str "completed" ∧
    pyGet (BaseAgent.execute agent_type execution_id t (.ok results))
      "results" = .dict results :=
  ⟨rfl, rfl, rfl, rfl, rfl, rfl, rfl⟩

/-- Claim C9 counterexample: a state whose entitlement_results is present
(`some {}`) with entitlement_summary.access_granted false (the default on
the empty dict), yet the LangGraph data-agent node still executes the data
agent — the Python guard `if state.entitlement_results:` tests truthiness,
and the empty dict is falsy. -/
theorem c9_counterexample_empty_entitlement_dict :
    (LangGraphOrchestrator.data_agent_node
      { task_description := "t", user_email := "u", session_id := "s",
        entitlement_results := some (.dict []) }
      (.ok (.dict [("rows", .list [])]))).1 = true ∧
    (LangGraphOrchestrator.data_agent_node
      { task_description := "t", user_email := "u", session_id := "s",
        entitlement_results := some (.dict []) }
      (.ok (.dict [("rows", .list [])]))).2.2.data_results =
      some (.dict [("rows", .list [])]) :=
  ⟨rfl, rfl⟩

/-- Claim C9 (amended): for every state whose entitlement_results is present
and truthy (non-empty), when the guard's lookup chain succeeds and yields a
falsy access_granted, the LangGraph data-agent node never executes the data
agent: it returns to the supervisor with data_results set to the
access-denied error dict; and when the lookup chain instead raises
`AttributeError` (a non-dict receiver, e.g. entitlement_summary = None), the
data agent is still never executed, but the node's exception handler
increments error_count and leaves data_results unset. -/
theorem c9_truthy_denied_skips_data_agent
    (state : DataflowState) (exec : ExecOutcome) (er : PyVal)
    (hpresent : state.entitlement_results = some er)
    (htruthy : er.truthy = true) :
    (∀ summary v,
      pyGetE er "entitlement_summary" (.dict []) = .ok summary →
      pyGetE summary "access_granted" (.bool false) = .ok v →
      v.truthy = false →
      LangGraphOrchestrator.data_agent_node state exec =
        (false, "supervisor",
          { state with data_results := some (.dict [("error",
              .str "Access denied by entitlement validation")]) })) ∧
    (∀ msg,
      pyGetE er "entitlement_summary" (.dict []) = .error msg →
      LangGraphOrchestrator.data_agent_node state exec =
        (false, "supervisor",
          { state with error_count := state.error_count + 1 })) ∧
    (∀ summary msg,
      pyGetE er "entitlement_summary" (.dict []) = .ok summary →
      pyGetE summary "access_granted" (.bool false) = .error msg →
      LangGraphOrchestrator.data_agent_node state exec =
        (false, "supervisor",
          { state with error_count := state.error_count + 1 })) := by
  refine ⟨fun summary v h1 h2 hv => ?_, fun msg h1 => ?_,
    fun summary msg h1 h2 => ?_⟩ <;>
    simp [LangGraphOrchestrator.data_agent_node, hpresent, htruthy, h1]
  · simp [h2, hv]
  · simp [h2]

/-- Witness for C9 at a concrete denied state. -/
theorem c9_witness :
    LangGraphOrchestrator.data_agent_node
      { task_description := "t2", user_email := "u2", session_id := "s2",
        entitlement_results := some (.dict [("entitlement_summary",
          .dict [("access_granted", .bool false)])]) }
      (.ok (.dict [])) =
      (false, "supervisor",
        { task_description := "t2", user_email := "u2", session_id := "s2",
          entitlement_results := some (.dict [("entitlement_summary",
            .dict [("access_granted", .bool false)])]),
          data_results := some (.dict [("error",
            .str "Access denied by entitlement validation")]) }) :=
  (c9_truthy_denied_skips_data_agent
      { task_description := "t2", user_email := "u2", session_id := "s2",
        entitlement_results := some (.dict [("entitlement_summary",
          .dict [("access_granted", .bool false)])]) }
      (.ok (.dict []))
      (.dict [("entitlement_summary",
        .dict [("access_granted", .bool false)])])
      rfl rfl).1
    (.dict [("access_granted", .bool false)]) (.bool false) rfl rfl rfl

/-- Claim C6: the Data agent reads its server list from the "servers" map of
the parsed MCP config file (empty map when the file is missing or
unreadable), contacts only entries of type "http" that have a url, and every
request it sends is an HTTP POST whose JSON body carries "jsonrpc": "2.0",
an id, and either method "tools/list" (discovery) or method "tools/call"
with params holding the tool name and arguments (invocation). -/
theorem c6_mcp_config_and_jsonrpc_requests :
    (DataAgent.load_mcp_config Option.none = .dict []) ∧
    (∀ kvs, DataAgent.load_mcp_config (some (.dict kvs)) =
        ((kvs.lookup "servers").getD (.dict []))) ∧
    (∀ servers p, p ∈ DataAgent.contacted_servers servers →
        pyGet p.2 "type" = .str "http" ∧ (pyGet p.2 "url").truthy = true) ∧
    (∀ servers r, r ∈ DataAgent.discovery_requests servers →
        r.verb = "POST" ∧
        pyGet r.body "jsonrpc" = .str "2.0" ∧
        pyGet r.body "id" = .int 1 ∧
        pyGet r.body "method" = .str "tools/list") ∧
    (∀ (u : PyVal) (tool_name : String) (args : PyVal),
        (DataAgent.execute_single_mcp_tool_request u tool_name args).verb =
          "POST" ∧
        pyGet (DataAgent.execute_single_mcp_tool_request u tool_name args).body
          "jsonrpc" = .str "2.0" ∧
        pyGet (DataAgent.execute_single_mcp_tool_request u tool_name args).body
          "id" = .int 1 ∧
        pyGet (DataAgent.execute_single_mcp_tool_request u tool_name args).body
          "method" = .str "tools/call" ∧
        pyGet (pyGet (DataAgent.execute_single_mcp_tool_request u tool_name
          args).body "params") "name" = .str tool_name ∧
        pyGet (pyGet (DataAgent.execute_single_mcp_tool_request u tool_name
          args).body "params") "arguments" = args) := by
  refine ⟨rfl, fun kvs => rfl, ?_, ?_, ?_⟩
  · intro servers p hp
    cases servers with
    | dict kvs =>
        simp only [DataAgent.contacted_servers, List.mem_filter] at hp
        obtain ⟨-, hcond⟩ := hp
        rw [Bool.and_eq_true] at hcond
        obtain ⟨htype, hurl⟩ := hcond
        refine ⟨?_, hurl⟩
        cases h : pyGet p.2 "type" <;> rw [h] at htype <;> simp at htype
        rw [htype]
    | null => simp [DataAgent.contacted_servers] at hp
    | bool b => simp [DataAgent.contacted_servers] at hp
    | int n => simp [DataAgent.contacted_servers] at hp
    | str s => simp [DataAgent.contacted_servers] at hp
    | list l => simp [DataAgent.contacted_servers] at hp
  · intro servers r hr
    simp only [DataAgent.discovery_requests, List.mem_map] at hr
    obtain ⟨p, -, rfl⟩ := hr
    exact ⟨rfl, rfl, rfl, rfl⟩
  · intro u tool_name args
    exact ⟨rfl, rfl, rfl, rfl, rfl, rfl⟩

/-- Witness for C6: a one-server http config, its contacted entry, and its
discovery request. -/
theorem c6_witness :
    (pyGet (PyVal.dict [("type", .str "http"),
        ("url", .str "http://localhost:8080/mcp")]) "type" = .str "http" ∧
      (pyGet (PyVal.dict [("type", .str "http"),
        ("url", .str "http://localhost:8080/mcp")]) "url").truthy = true) ∧
    ({ verb := "POST", url := PyVal.str "http://localhost:8080/mcp",
       body := DataAgent.tools_list_request } : HttpRequest).verb = "POST" := by
  constructor
  · exact c6_mcp_config_and_jsonrpc_requests.2.2.1
      (.dict [("demoAgent", .dict [("type", .str "http"),
        ("url", .str "http://localhost:8080/mcp")])])
      ("demoAgent", .dict [("type", .str "http"),
        ("url", .str "http://localhost:8080/mcp")])
      (List.mem_singleton.mpr rfl)
  · rfl

namespace Orchestrator

/-- Applying a supervisor command never changes `error_count`. -/
theorem apply_error_count (c : SupCommand) (s : DataflowState) :
    (c.apply s).error_count = s.error_count := rfl

/-- Applying a supervisor command never changes `max_errors`. -/
theorem apply_max_errors (c : SupCommand) (s : DataflowState) :
    (c.apply s).max_errors = s.max_errors := rfl

/-- Every node execution leaves `error_count` unchanged or adds one. -/
theorem step_error_count (env : Env) (n : GraphNode) (s : DataflowState) :
    (step env n s).2.error_count = s.error_count ∨
      (step env n s).2.error_count = s.error_count + 1 := by
  obtain ⟨llm, exec, now⟩ := env
  cases n <;> cases exec <;>
    simp [step, metadata_agent_node, entitlement_agent_node,
      data_agent_node, aggregation_agent_node, error_handler_node,
      apply_error_count]

/-- `error_count` never decreases across one node execution. -/
theorem step_error_count_le (env : Env) (n : GraphNode) (s : DataflowState) :
    s.error_count ≤ (step env n s).2.error_count := by
  rcases step_error_count env n s with h | h <;> omega

/-- No node execution changes `max_errors`. -/
theorem step_max_errors (env : Env) (n : GraphNode) (s : DataflowState) :
    (step env n s).2.max_errors = s.max_errors := by
  obtain ⟨llm, exec, now⟩ := env
  cases n <;> cases exec <;> rfl

/-- `error_count` never decreases along any trace of node executions. -/
theorem runTrace_error_count_le (tr : List (Env × GraphNode))
    (s : DataflowState) :
    s.error_count ≤ (runTrace tr s).error_count := by
  induction tr generalizing s with
  | nil => exact le_refl _
  | cons p tr ih =>
      exact le_trans (step_error_count_le p.1 p.2 s) (ih (step p.1 p.2 s).2)

/-- `max_errors` is constant along any trace of node executions. -/
theorem runTrace_max_errors (tr : List (Env × GraphNode))
    (s : DataflowState) :
    (runTrace tr s).max_errors = s.max_errors := by
  induction tr generalizing s with
  | nil => rfl
  | cons p tr ih =>
      exact (ih (step p.1 p.2 s).2).trans (step_max_errors p.1 p.2 s)

/-- When `error_count` has reached `max_errors`, the supervisor step can only
terminate the workflow as failed. -/
theorem supervisor_step_failed (env : Env) (s : DataflowState)
    (h : s.max_errors ≤ s.error_count) :
    step env .supervisor s =
      (GotoTarget.END,
        { s with workflow_status := "failed", completed_at := some env.now }) := by
  obtain ⟨llm, exec, now⟩ := env
  simp [step, supervisor_agent, ge_iff_le, h, SupCommand.apply]

end Orchestrator

/-- Claim C10: `error_count` is monotonically non-decreasing — every node of
the state-machine orchestrator's graph leaves it unchanged or increases it by
one, no trace of node executions decreases it, and once it has reached
`max_errors` every later supervisor execution terminates the workflow as
failed (the only possible outcome). -/
theorem c10_error_count_monotone
    (env : Orchestrator.Env) (n : Orchestrator.GraphNode) (s : DataflowState) :
    ((Orchestrator.step env n s).2.error_count = s.error_count ∨
     (Orchestrator.step env n s).2.error_count = s.error_count + 1) ∧
    (∀ tr, s.error_count ≤ (Orchestrator.runTrace tr s).error_count) ∧
    (∀ tr, s.max_errors ≤ s.error_count →
      Orchestrator.step env Orchestrator.GraphNode.supervisor
          (Orchestrator.runTrace tr s) =
        (GotoTarget.END, { Orchestrator.runTrace tr s with
          workflow_status := "failed", completed_at := some env.now })) := by
  refine ⟨Orchestrator.step_error_count env n s,
    fun tr => Orchestrator.runTrace_error_count_le tr s, fun tr h => ?_⟩
  apply Orchestrator.supervisor_step_failed
  calc (Orchestrator.runTrace tr s).max_errors
      = s.max_errors := Orchestrator.runTrace_max_errors tr s
    _ ≤ s.error_count := h
    _ ≤ (Orchestrator.runTrace tr s).error_count :=
        Orchestrator.runTrace_error_count_le tr s

/-- Witness for C10: at error_count = max_errors = 3 the supervisor step
terminates the workflow as failed. -/
theorem c10_witness :
    Orchestrator.step
      { llm := LLMOutcome.exnOther, exec := ExecOutcome.exn "boom", now := "T0" }
      Orchestrator.GraphNode.supervisor
      { task_description := "t", user_email := "u", session_id := "s",
        error_count := 3 } =
      (GotoTarget.END,
        { task_description := "t", user_email := "u", session_id := "s",
          error_count := 3, workflow_status := "failed",
          completed_at := some "T0" }) := by
  have h := (c10_error_count_monotone
    { llm := LLMOutcome.exnOther, exec := ExecOutcome.exn "boom", now := "T0" }
    Orchestrator.GraphNode.supervisor
    { task_description := "t", user_email := "u", session_id := "s",
      error_count := 3 }).2.2 [] (by decide)
  exact h
